import Mathlib

/-!
A shallow embedding of the `dreamer` state-storage providers
(`dreamer/providers/aws.py`, `dreamer/providers/local.py`,
`dreamer/providers/utils.py`), together with theorems checking the
behaviour of `open_project`, `close_project`, `sync`, `get`, `get_rw`,
`delete_project`, `project_exists`, `module_exists` and the scoped
(`__enter__`/`__exit__`) lifecycle against the specification.

The object store (S3) is modelled as an association list from keys to
object contents, extended with a "denied keys" list and an
"unreachable" flag so that the different transport failure modes
(`NoSuchKey` client error, `AccessDenied` client error, non-client
connection failure) can be distinguished, and with a deletion log that
records the order in which `delete_object` calls reach the remote.
The staging directory is an association list from relative paths
(`module/project/filename`) to contents.  Exceptions are modelled with
`Except`; every operation returns the (possibly mutated) provider
state and remote alongside the result, since a Python exception does
not roll back prior mutations.
-/

set_option autoImplicit false

namespace Dreamer

/-- The kinds of `botocore` `ClientError` responses the model distinguishes. -/
inductive ClientKind where
  | noSuchKey
  | accessDenied
deriving DecidableEq, Repr

/-- Python exceptions raised by the providers and the transport. -/
inductive PyErr where
  /-- `FileNotFoundError` -/
  | fileNotFound (msg : String)
  /-- `DreamerException` -/
  | dreamer (msg : String)
  /-- `ValueError` (raised by `_get` in `providers/utils.py`) -/
  | valueError (msg : String)
  /-- `botocore.exceptions.ClientError` -/
  | clientErr (k : ClientKind)
  /-- a non-`ClientError` transport failure (e.g. a connection error) -/
  | connError
  /-- `OSError` (e.g. `rmdir` on a non-empty directory) -/
  | osErr (msg : String)
  /-- a `json.load` failure on a non-JSON object body -/
  | jsonError
deriving DecidableEq, Repr

/-- `except self._ClientError` catches exactly the client errors. -/
def PyErr.isClientError : PyErr → Bool
  | .clientErr _ => true
  | _ => false

/-- The content of a stored object: raw file bytes, or the JSON metadata
record `{version, author}` written by `sync_project`. -/
inductive Content where
  | file (data : List Nat)
  | meta (version : Nat) (author : String)
deriving DecidableEq, Repr

/-- Whether the first character list begins with the second one
(a structurally recursive `startswith` on the underlying characters). -/
def listStarts : List Char → List Char → Bool
  | _, [] => true
  | [], _ :: _ => false
  | a :: as, b :: bs => a == b && listStarts as bs

/-- Python `str.startswith`: `strStarts s pre` is true when `s` begins
with `pre`. -/
def strStarts (s pre : String) : Bool := listStarts s.data pre.data

/-- Python slicing `s[n:]`: drop the first `n` characters. -/
def strDrop (s : String) (n : Nat) : String := ⟨s.data.drop n⟩

/-- Association-list lookup by key (first match). -/
def lookupObj : List (String × Content) → String → Option Content
  | [], _ => none
  | (k, c) :: rest, key => if k = key then some c else lookupObj rest key

/-- Association-list update: overwrite the key if present, else append. -/
def setObj : List (String × Content) → String → Content → List (String × Content)
  | [], key, c => [(key, c)]
  | (k, v) :: rest, key, c =>
    if k = key then (key, c) :: rest else (k, v) :: setObj rest key c

/-- Association-list removal of every binding of the key. -/
def removeObj : List (String × Content) → String → List (String × Content)
  | [], _ => []
  | (k, v) :: rest, key =>
    if k = key then removeObj rest key else (k, v) :: removeObj rest key

/-- The remote object store: contents, plus failure-mode configuration and
a log of the keys deleted (in order), used to observe deletion order. -/
structure Remote where
  objects : List (String × Content)
  denied : List String
  unreachable : Bool
  delLog : List String
deriving DecidableEq, Repr

/-- `S3Transfer.download_file`: fails with a connection error when the
service is unreachable, with `AccessDenied` on a denied key, and with
`NoSuchKey` when the key is absent. -/
def downloadFile (r : Remote) (key : String) : Except PyErr Content :=
  if r.unreachable then .error .connError
  else if r.denied.contains key then .error (.clientErr .accessDenied)
  else match lookupObj r.objects key with
    | some c => .ok c
    | none => .error (.clientErr .noSuchKey)

/-- `S3Transfer.upload_file`: stores the content under the key. -/
def uploadFile (r : Remote) (key : String) (c : Content) : Except PyErr Remote :=
  if r.unreachable then .error .connError
  else .ok { r with objects := setObj r.objects key c }

/-- `client.delete_object`: removes the key (succeeding even when the key is
absent, as S3 does) and records the deletion in the log. -/
def deleteObject (r : Remote) (key : String) : Except PyErr Remote :=
  if r.unreachable then .error .connError
  else .ok { r with objects := removeObj r.objects key, delLog := r.delLog ++ [key] }

/-- `list_objects` paginated over the bucket, filtered by the key part that
must start the key (the provider's stored `self.prefix`). -/
def listKeys (r : Remote) (pre : String) : Except PyErr (List String) :=
  if r.unreachable then .error .connError
  else .ok ((r.objects.map Prod.fst).filter (fun k => strStarts k pre))

/-- `_get` from `providers/utils.py`: the first non-`None` of the two
arguments, raising `ValueError` when both are `None`. -/
def pyGet (a b : Option String) : Except PyErr String :=
  match a with
  | some x => .ok x
  | none =>
    match b with
    | some y => .ok y
    | none => .error (.valueError "no argument or default given")

/-- `whoami` from `providers/utils.py`, `f'{getuser()}@{gethostname()}'`;
the ambient identity is modelled as a fixed string. -/
def whoami : String := "user@host"

/-- Python truthiness of an `Optional[str]`: `None` and `''` are falsy. -/
def truthy : Option String → Bool
  | none => false
  | some s => !(s == "")

namespace AWSFileProvider

/-- The in-memory state of an `AWSFileProvider` instance.  `key_pre` is the
stored `self.prefix` (`''` or ending in `/`), `bucket` is `self.bucket`,
`local_files` is the staging directory (`self.local_dir`) as a map from
relative paths `module/project/filename` to contents, `dirty` is
`self.dirty` as a duplicate-free list of relative paths, `bucket_cache` is
the memoised `self._bucket_contents`, and the remaining fields are
`self.last_version` and `self._deleted_project`. -/
structure State where
  key_pre : String
  bucket : String
  default_module : Option String
  default_project : Option String
  local_files : List (String × Content)
  dirty : List String
  bucket_cache : Option (List String)
  last_version : Option Nat
  deleted_project : Bool
deriving DecidableEq, Repr

/-- `_get_project_and_module`: resolve the explicit arguments against the
instance defaults, the project first, raising `ValueError` when neither an
argument nor a default is present. -/
def get_project_and_module (s : State) (project module : Option String) :
    Except PyErr (String × String) := do
  let p ← pyGet project s.default_project
  let m ← pyGet module s.default_module
  .ok (p, m)

/-- `_get_s3_key`: `self.prefix + '/'.join((module, project, fn))`. -/
def s3Key (s : State) (m p fn : String) : String :=
  s.key_pre ++ m ++ "/" ++ p ++ "/" ++ fn

/-- The staging-directory path of a file relative to `self.local_dir`. -/
def localPath (m p fn : String) : String :=
  m ++ "/" ++ p ++ "/" ++ fn

/-- `get_metadata(module, project)`: download the object at
`self.prefix + module + '/' + project` into `<staging>/module/project/meta.json`
and parse it as JSON.  Transport errors propagate; a body that is not a
metadata record fails to parse.  The downloaded copy stays in the staging
directory even when parsing fails. -/
def get_metadata (s : State) (r : Remote) (module project : String) :
    Except PyErr (Nat × String) × State × Remote :=
  let key := s.key_pre ++ module ++ "/" ++ project
  let dest := localPath module project "meta.json"
  match downloadFile r key with
  | .error e => (.error e, s, r)
  | .ok c =>
    let s' := { s with local_files := setObj s.local_files dest c }
    match c with
    | .meta v a => (.ok (v, a), s', r)
    | .file _ => (.error .jsonError, s', r)

/-- `get_remote_version()`: requires the defaults to be set; returns the
`version` field of the metadata record, or `None` when the fetch fails with
a `ClientError`; every other failure propagates. -/
def get_remote_version (s : State) (r : Remote) :
    Except PyErr (Option Nat) × State × Remote :=
  match s.default_module, s.default_project with
  | some m, some p =>
    match get_metadata s r m p with
    | (.ok (v, _), s', r') => (.ok (some v), s', r')
    | (.error e, s', r') =>
      if e.isClientError then (.ok none, s', r') else (.error e, s', r')
  | _, _ =>
    (.error (.dreamer "get_remote_version() called without default_module and default_project set"), s, r)

/-- `open_project(module, project)`: set the defaults, then record the
remote version (errors from the version fetch propagate). -/
def open_project (s : State) (r : Remote) (module project : String) :
    Except PyErr Unit × State × Remote :=
  let s1 := { s with default_module := some module, default_project := some project }
  match get_remote_version s1 r with
  | (.ok v, s2, r2) => (.ok (), { s2 with last_version := v }, r2)
  | (.error e, s2, r2) => (.error e, s2, r2)

/-- The message of the `DreamerException` raised on a version mismatch. -/
def concurrentModificationMsg : String :=
  "Critical: Remote state has been modified during our runtime!"

/-- `sync_project()`: requires the defaults; computes
`new_version = 0` when `last_version is None` else `last_version + 1`,
writes the metadata record to `<staging>/module/project/meta.json` and
uploads it to `self.prefix + module + '/' + project`, returning the new
version.  It does not itself update `last_version`. -/
def sync_project (s : State) (r : Remote) : Except PyErr Nat × State × Remote :=
  match s.default_module, s.default_project with
  | some m, some p =>
    let key := s.key_pre ++ m ++ "/" ++ p
    let path := localPath m p "meta.json"
    let new_version := match s.last_version with
      | none => 0
      | some v => v + 1
    let record := Content.meta new_version whoami
    let s1 := { s with local_files := setObj s.local_files path record }
    match uploadFile r key record with
    | .ok r' => (.ok new_version, s1, r')
    | .error e => (.error e, s1, r)
  | _, _ =>
    (.error (.dreamer "sync_project() called without default_module and default_project set"), s, r)

/-- `close_project()`: run `sync_project()` (its errors propagate, leaving
the context set), then clear the defaults and `last_version`. -/
def close_project (s : State) (r : Remote) : Except PyErr Unit × State × Remote :=
  match sync_project s r with
  | (.ok _, s1, r1) =>
    (.ok (), { s1 with default_module := none, default_project := none, last_version := none }, r1)
  | (.error e, s1, r1) => (.error e, s1, r1)

/-- `get(fn, project=, module=)`: return the staging path if a staged copy
exists, otherwise download the object; any download failure whatsoever is
re-raised as `FileNotFoundError(f's3://{bucket}/{key}')`. -/
def get (s : State) (r : Remote) (fn : String) (project module : Option String) :
    Except PyErr String × State × Remote :=
  match get_project_and_module s project module with
  | .error e => (.error e, s, r)
  | .ok (p, m) =>
    let file_path := localPath m p fn
    match lookupObj s.local_files file_path with
    | some _ => (.ok file_path, s, r)
    | none =>
      let key := s3Key s m p fn
      match downloadFile r key with
      | .ok c => (.ok file_path, { s with local_files := setObj s.local_files file_path c }, r)
      | .error _ => (.error (.fileNotFound ("s3://" ++ s.bucket ++ "/" ++ key)), s, r)

/-- `get_rw(fn, project=, module=)`: mark the staging path dirty, then try
`get`; when that fails with `FileNotFoundError`, create an empty staged
file instead (`file_path.touch()`). -/
def get_rw (s : State) (r : Remote) (fn : String) (project module : Option String) :
    Except PyErr String × State × Remote :=
  match get_project_and_module s project module with
  | .error e => (.error e, s, r)
  | .ok (p, m) =>
    let file_path := localPath m p fn
    let s1 := { s with dirty := if s.dirty.contains file_path then s.dirty else s.dirty ++ [file_path] }
    match get s1 r fn project module with
    | (.ok _, s2, r2) => (.ok file_path, s2, r2)
    | (.error (.fileNotFound _), s2, r2) =>
      (.ok file_path, { s2 with local_files := setObj s2.local_files file_path (.file []) }, r2)
    | (.error e, s2, r2) => (.error e, s2, r2)

/-- The `bucket_contents` property: list the bucket keys under
`self.prefix`, strip the `self.prefix` from each, and memoise the result. -/
def bucket_contents (s : State) (r : Remote) :
    Except PyErr (List String) × State × Remote :=
  match s.bucket_cache with
  | some l => (.ok l, s, r)
  | none =>
    match listKeys r s.key_pre with
    | .ok keys =>
      let stripped := keys.map (fun k => strDrop k s.key_pre.length)
      (.ok stripped, { s with bucket_cache := some stripped }, r)
    | .error e => (.error e, s, r)

/-- `get_files(project=, module=)`: the suffixes after `module/project/` of
the cached bucket listing. -/
def get_files (s : State) (r : Remote) (project module : Option String) :
    Except PyErr (List String) × State × Remote :=
  match get_project_and_module s project module with
  | .error e => (.error e, s, r)
  | .ok (p, m) =>
    match bucket_contents s r with
    | (.ok keys, s1, r1) =>
      let pm := m ++ "/" ++ p ++ "/"
      (.ok ((keys.filter (fun k => strStarts k pm)).map (fun k => strDrop k pm.length)), s1, r1)
    | (.error e, s1, r1) => (.error e, s1, r1)

/-- `delete(fn, project=, module=)`: delete the object under the file's key. -/
def delete (s : State) (r : Remote) (fn : String) (project module : Option String) :
    Except PyErr Unit × State × Remote :=
  match get_project_and_module s project module with
  | .error e => (.error e, s, r)
  | .ok (p, m) =>
    match deleteObject r (s3Key s m p fn) with
    | .ok r' => (.ok (), s, r')
    | .error e => (.error e, s, r)

/-- The loop body of recursive `delete_project`: delete the listed files in
order, stopping at the first error. -/
def delete_files (s : State) (r : Remote) (p m : String) :
    List String → Except PyErr Unit × State × Remote
  | [] => (.ok (), s, r)
  | fn :: rest =>
    match delete s r fn (some p) (some m) with
    | (.ok _, s1, r1) => delete_files s1 r1 p m rest
    | (.error e, s1, r1) => (.error e, s1, r1)

/-- `delete_project(project, module=, recursive=)`: set `_deleted_project`
when the target is the currently open default, delete the listed files
when `recursive`, then delete the project's own record key
`'/'.join((self.prefix + module, project))`. -/
def delete_project (s : State) (r : Remote) (project : String) (module : Option String)
    (recursive : Bool) : Except PyErr Unit × State × Remote :=
  match get_project_and_module s (some project) module with
  | .error e => (.error e, s, r)
  | .ok (p, m) =>
    let s0 := if s.default_project = some p ∧ s.default_module = some m
      then { s with deleted_project := true } else s
    let recordKey := s.key_pre ++ m ++ "/" ++ p
    if recursive then
      match get_files s0 r (some p) (some m) with
      | (.ok fns, s1, r1) =>
        match delete_files s1 r1 p m fns with
        | (.ok _, s2, r2) =>
          match deleteObject r2 recordKey with
          | .ok r3 => (.ok (), s2, r3)
          | .error e => (.error e, s2, r2)
        | (.error e, s2, r2) => (.error e, s2, r2)
      | (.error e, s1, r1) => (.error e, s1, r1)
    else
      match deleteObject r recordKey with
      | .ok r1 => (.ok (), s0, r1)
      | .error e => (.error e, s0, r)

/-- `module_exists(module)`: directories do not exist in S3, so modules
"always exist". -/
def module_exists (s : State) (module : String) : Bool := true

/-- `project_exists(project, module=)`: whether `module/project` occurs in
the (memoised) bucket listing. -/
def project_exists (s : State) (r : Remote) (project : String) (module : Option String) :
    Except PyErr Bool × State × Remote :=
  match get_project_and_module s (some project) module with
  | .error e => (.error e, s, r)
  | .ok (p, m) =>
    match bucket_contents s r with
    | (.ok keys, s1, r1) => (.ok (keys.contains (m ++ "/" ++ p)), s1, r1)
    | (.error e, s1, r1) => (.error e, s1, r1)

/-- The upload loop of `sync()`: upload each dirty staged file to
`self.prefix + str(path.relative_to(self.local_dir))`, reading its staged
content (a missing staged file would raise `FileNotFoundError`). -/
def upload_dirty (s : State) (r : Remote) : List String → Except PyErr Unit × Remote
  | [] => (.ok (), r)
  | path :: rest =>
    match lookupObj s.local_files path with
    | none => (.error (.fileNotFound path), r)
    | some c =>
      match uploadFile r (s.key_pre ++ path) c with
      | .ok r' => upload_dirty s r' rest
      | .error e => (.error e, r)

/-- `sync()`: return `true` immediately when the project was deleted or
nothing is dirty; otherwise re-fetch the remote version, raise
`DreamerException` when it differs from `last_version`, upload every dirty
staged file, and (when both defaults are truthy) run `sync_project`,
storing its result into `last_version`.  The dirty set is not cleared. -/
def sync (s : State) (r : Remote) : Except PyErr Bool × State × Remote :=
  if s.deleted_project || s.dirty.isEmpty then (.ok true, s, r)
  else
    match get_remote_version s r with
    | (.error e, s1, r1) => (.error e, s1, r1)
    | (.ok current, s1, r1) =>
      if current ≠ s1.last_version then
        (.error (.dreamer concurrentModificationMsg), s1, r1)
      else
        match upload_dirty s1 r1 s1.dirty with
        | (.error e, r2) => (.error e, s1, r2)
        | (.ok _, r2) =>
          if truthy s1.default_module && truthy s1.default_project then
            match sync_project s1 r2 with
            | (.ok nv, s2, r3) => (.ok true, { s2 with last_version := some nv }, r3)
            | (.error e, s2, r3) => (.error e, s2, r3)
          else (.ok true, s1, r2)

/-- The observable outcome of `__exit__`: the exception it raises itself
(if any), whether the staging directory was removed, whether the
"local state has NOT been removed" message was logged, and the final
state and remote. -/
structure ExitResult where
  raised : Option PyErr
  staging_removed : Bool
  logged_not_removed : Bool
  state : State
  remote : Remote
deriving DecidableEq, Repr

/-- `__exit__(exc_type, exc_val, exc_tb)`: run `sync()` catching every
exception into `local_exc`; remove the staging directory whenever
`exc_type is None`; when an exception is in flight or `sync` failed, log
that the local state has NOT been removed and re-raise `local_exc` if it
is set; otherwise return `False`. -/
def exitScope (s : State) (r : Remote) (exc_in_flight : Bool) : ExitResult :=
  let (res, s1, r1) := sync s r
  let local_exc : Option PyErr := match res with
    | .ok _ => none
    | .error e => some e
  let removed := !exc_in_flight
  let s2 := if removed then { s1 with local_files := [] } else s1
  { raised := local_exc
    staging_removed := removed
    logged_not_removed := exc_in_flight || local_exc.isSome
    state := s2
    remote := r1 }

/-- The exception the caller of the `with` block observes: the one raised
by `__exit__` itself if any, else (since `__exit__` returns `False`) the
exception that was already in flight. -/
def observedException (original : Option PyErr) (res : ExitResult) : Option PyErr :=
  match res.raised with
  | some e => some e
  | none => original

end AWSFileProvider

namespace LocalFileProvider

/-- A model of the local filesystem: the set of existing directories and
a map from file paths to contents (byte lists). -/
structure LocalFS where
  dirs : List String
  files : List (String × List Nat)
deriving DecidableEq, Repr

/-- `Path.exists()`: the path is a directory or a file. -/
def pathExists (fs : LocalFS) (p : String) : Bool :=
  fs.dirs.contains p || (fs.files.map Prod.fst).contains p

/-- `Path.mkdir()` guarded by an existence check in the source, so the
model simply adds the directory. -/
def addDir (fs : LocalFS) (p : String) : LocalFS :=
  { fs with dirs := fs.dirs ++ [p] }

/-- `Path.touch()` on a path known not to exist: create it empty. -/
def touch (fs : LocalFS) (p : String) : LocalFS :=
  { fs with files := fs.files ++ [(p, [])] }

/-- Whether a path lies strictly inside the directory. -/
def insideDir (dir p : String) : Bool :=
  strStarts p (dir ++ "/")

/-- `shutil.rmtree(dir)`: `FileNotFoundError` when the directory does not
exist, otherwise remove it and everything under it. -/
def rmtree (fs : LocalFS) (dir : String) : Except PyErr LocalFS :=
  if fs.dirs.contains dir then
    .ok { dirs := fs.dirs.filter (fun d => !(d == dir) && !insideDir dir d)
          files := fs.files.filter (fun kv => !insideDir dir kv.1) }
  else .error (.fileNotFound dir)

/-- `Path.rmdir()`: `FileNotFoundError` when the directory does not exist,
`OSError` when it is non-empty, otherwise remove it. -/
def rmdir (fs : LocalFS) (dir : String) : Except PyErr LocalFS :=
  if fs.dirs.contains dir then
    if fs.dirs.any (fun d => insideDir dir d) || fs.files.any (fun kv => insideDir dir kv.1) then
      .error (.osErr "Directory not empty")
    else
      .ok { fs with dirs := fs.dirs.filter (fun d => !(d == dir)) }
  else .error (.fileNotFound dir)

/-- The state of a `LocalFileProvider` instance. -/
structure State where
  base_dir : String
  default_module : Option String
  default_project : Option String
deriving DecidableEq, Repr

/-- `_get_project_and_module` on the local provider (same resolution as
the AWS one). -/
def get_project_and_module (s : State) (project module : Option String) :
    Except PyErr (String × String) := do
  let p ← pyGet project s.default_project
  let m ← pyGet module s.default_module
  .ok (p, m)

/-- `get_path(fn, project, module)`: `self.base_dir / module / project / fn`. -/
def get_path (s : State) (fn p m : String) : String :=
  s.base_dir ++ "/" ++ m ++ "/" ++ p ++ "/" ++ fn

/-- `get(fn, project=, module=)`: `FileNotFoundError` when the path does
not exist, else the path. -/
def get (s : State) (fs : LocalFS) (fn : String) (project module : Option String) :
    Except PyErr String :=
  match get_project_and_module s project module with
  | .error e => .error e
  | .ok (p, m) =>
    let path := get_path s fn p m
    if pathExists fs path then .ok path else .error (.fileNotFound path)

/-- `get_rw(fn, project=, module=)`: create the base, module and project
directories when absent, then touch the file when absent, and return the
path. -/
def get_rw (s : State) (fs : LocalFS) (fn : String) (project module : Option String) :
    Except PyErr String × LocalFS :=
  match get_project_and_module s project module with
  | .error e => (.error e, fs)
  | .ok (p, m) =>
    let fs1 := if pathExists fs s.base_dir then fs else addDir fs s.base_dir
    let md := s.base_dir ++ "/" ++ m
    let fs2 := if pathExists fs1 md then fs1 else addDir fs1 md
    let pd := md ++ "/" ++ p
    let fs3 := if pathExists fs2 pd then fs2 else addDir fs2 pd
    let path := get_path s fn p m
    let fs4 := if pathExists fs3 path then fs3 else touch fs3 path
    (.ok path, fs4)

/-- `delete_project(project, module=, recursive=)`: `rmtree` the project
directory when `recursive`, else `rmdir` it; either call raises
`FileNotFoundError` when the directory does not exist. -/
def delete_project (s : State) (fs : LocalFS) (project : String) (module : Option String)
    (recursive : Bool) : Except PyErr Unit × LocalFS :=
  match get_project_and_module s (some project) module with
  | .error e => (.error e, fs)
  | .ok (p, m) =>
    let dir := s.base_dir ++ "/" ++ m ++ "/" ++ p
    if recursive then
      match rmtree fs dir with
      | .ok fs' => (.ok (), fs')
      | .error e => (.error e, fs)
    else
      match rmdir fs dir with
      | .ok fs' => (.ok (), fs')
      | .error e => (.error e, fs)

/-- `sync()` on the local provider: a no-op returning `True`. -/
def sync (s : State) : Bool := true

end LocalFileProvider

/-! ## Shared concrete instances used by the theorems below -/

/-- A freshly constructed object-store provider with no prefix, before any
project is opened. -/
def freshState : AWSFileProvider.State :=
  { key_pre := "", bucket := "bucket", default_module := none, default_project := none,
    local_files := [], dirty := [], bucket_cache := none, last_version := none,
    deleted_project := false }

/-- An empty, reachable remote store. -/
def emptyRemote : Remote :=
  { objects := [], denied := [], unreachable := false, delLog := [] }

/-- A provider that opened project `m/p` at version 0 and staged a dirty
write to file `f`. -/
def conflictState : AWSFileProvider.State :=
  { key_pre := "", bucket := "bucket", default_module := some "m", default_project := some "p",
    local_files := [("m/p/f", .file [7])], dirty := ["m/p/f"], bucket_cache := none,
    last_version := some 0, deleted_project := false }

/-- A remote whose metadata record for `m/p` has meanwhile advanced to
version 1 (another process synced). -/
def conflictRemote : Remote :=
  { objects := [("m/p", .meta 1 "other@host")], denied := [], unreachable := false, delLog := [] }

/-- The P5 run, step 1: open project `m/p` against an empty remote. -/
def c2_open : Except PyErr Unit × AWSFileProvider.State × Remote :=
  AWSFileProvider.open_project freshState emptyRemote "m" "p"

/-- The P5 run, step 2: `write('f')` (a first write, staging an empty
dirty file). -/
def c2_write : Except PyErr String × AWSFileProvider.State × Remote :=
  AWSFileProvider.get_rw c2_open.2.1 c2_open.2.2 "f" none none

/-- The P5 run, step 3: the first `sync()`. -/
def c2_sync1 : Except PyErr Bool × AWSFileProvider.State × Remote :=
  AWSFileProvider.sync c2_write.2.1 c2_write.2.2

/-- The P5 run, step 4: a second `sync()` with no intervening writes. -/
def c2_sync2 : Except PyErr Bool × AWSFileProvider.State × Remote :=
  AWSFileProvider.sync c2_sync1.2.1 c2_sync1.2.2

/-- A provider with project `m/p` open at version 0 and nothing dirty. -/
def cleanOpenState : AWSFileProvider.State :=
  { key_pre := "", bucket := "bucket", default_module := some "m", default_project := some "p",
    local_files := [], dirty := [], bucket_cache := none, last_version := some 0,
    deleted_project := false }

/-- A remote whose metadata record for `m/p` is still at version 0. -/
def versionZeroRemote : Remote :=
  { objects := [("m/p", .meta 0 "author@host")], denied := [], unreachable := false, delLog := [] }

/-- A provider with project `m/p` open and nothing staged or dirty yet. -/
def openedState : AWSFileProvider.State :=
  { key_pre := "", bucket := "bucket", default_module := some "m", default_project := some "p",
    local_files := [], dirty := [], bucket_cache := none, last_version := none,
    deleted_project := false }

/-- A remote that answers `AccessDenied` (a `ClientError` that is not
"object not found") for the metadata key `m/p`. -/
def deniedRemote : Remote :=
  { objects := [], denied := ["m/p"], unreachable := false, delLog := [] }

/-- A remote that is unreachable: every call fails with a non-client
connection error. -/
def unreachableRemote : Remote :=
  { objects := [], denied := [], unreachable := true, delLog := [] }

/-- A remote holding the file object `m/p/f`. -/
def fileRemote : Remote :=
  { objects := [("m/p/f", .file [1, 2])], denied := [], unreachable := false, delLog := [] }

/-- The delete-project scenario of the spec: project `db/prod` with
metadata at version 5 and files `a` and `b`. -/
def twoFileRemote : Remote :=
  { objects := [("db/prod", .meta 5 "x@y"), ("db/prod/a", .file [1]), ("db/prod/b", .file [2])],
    denied := [], unreachable := false, delLog := [] }

/-- Recursive `delete_project('prod', 'db')` on a fresh provider against
`twoFileRemote`. -/
def c8_del : Except PyErr Unit × AWSFileProvider.State × Remote :=
  AWSFileProvider.delete_project freshState twoFileRemote "prod" (some "db") true

/-- A local provider rooted at `base`. -/
def localState : LocalFileProvider.State :=
  { base_dir := "base", default_module := none, default_project := none }

/-- A local filesystem where only the base directory exists: project
`db/prod` does not exist at all (and so has zero files). -/
def localFsNoProject : LocalFileProvider.LocalFS :=
  { dirs := ["base"], files := [] }

/-- A local filesystem where the project directory `base/db/prod` exists
but holds zero files. -/
def localFsEmptyProject : LocalFileProvider.LocalFS :=
  { dirs := ["base", "base/db", "base/db/prod"], files := [] }

namespace AWSFileProvider

/-! ## Helper lemmas -/

/-- `get_metadata` only adds the downloaded `meta.json` to the staging
directory; every other field of the state, and the remote, are unchanged. -/
theorem get_metadata_shape (s : State) (r : Remote) (m p : String) :
    ∃ res lf, get_metadata s r m p = (res, { s with local_files := lf }, r) := by
  simp only [get_metadata]
  split
  · exact ⟨_, s.local_files, rfl⟩
  · split
    · exact ⟨_, _, rfl⟩
    · exact ⟨_, _, rfl⟩

/-- `get_remote_version` only adds the downloaded `meta.json` to the
staging directory; every other field of the state, and the remote, are
unchanged. -/
theorem get_remote_version_shape (s : State) (r : Remote) :
    ∃ res lf, get_remote_version s r = (res, { s with local_files := lf }, r) := by
  simp only [get_remote_version]
  split
  · case _ m p hm hp =>
    obtain ⟨res, lf, hg⟩ := get_metadata_shape s r m p
    rw [hg]
    cases res with
    | ok va => exact ⟨_, lf, rfl⟩
    | error e =>
      cases he : e.isClientError
      · exact ⟨.error e, lf, by simp [he]⟩
      · exact ⟨.ok none, lf, by simp [he]⟩
  · exact ⟨_, s.local_files, rfl⟩

/-- `sync_project` only writes `meta.json` to the staging directory:
every other field of the state is unchanged. -/
theorem sync_project_shape (s : State) (r : Remote) :
    ∃ res lf r', sync_project s r = (res, { s with local_files := lf }, r') := by
  simp only [sync_project]
  split
  · split
    · exact ⟨_, _, _, rfl⟩
    · exact ⟨_, _, _, rfl⟩
  · exact ⟨_, s.local_files, r, rfl⟩

/-! ## Claim theorems -/

/-- C1: if `sync()` runs while a project is open with a non-empty dirty
set (and the project was not deleted this run), and the re-fetched remote
version `cv` differs from `last_version`, then `sync()` fails with the
concurrent-modification `DreamerException` and the remote is completely
unchanged: no file upload and no metadata write happened before the
failure. -/
theorem c1_sync_conflict_fails_uploads_nothing
    (s : State) (r : Remote) (cv : Option Nat)
    (hdirty : s.dirty ≠ [])
    (hdel : s.deleted_project = false)
    (hver : (get_remote_version s r).1 = .ok cv)
    (hne : cv ≠ s.last_version) :
    (sync s r).1 = .error (.dreamer concurrentModificationMsg) ∧
    (sync s r).2.2 = r := by
  have hie : s.dirty.isEmpty = false := by
    cases hd : s.dirty with
    | nil => exact absurd hd hdirty
    | cons a l => rfl
  obtain ⟨res, lf, hg⟩ := get_remote_version_shape s r
  have hres : res = .ok cv := by rw [hg] at hver; exact hver
  subst hres
  simp only [sync, hg, hdel, hie]
  simp [hne]

/-- C1 witness: the conflict scenario of P4 — a dirty staged file with
`last_version = 0` while the remote metadata sits at version 1 — makes
`sync()` fail, leaving the remote untouched. -/
theorem c1_witness :
    (sync conflictState conflictRemote).1 = .error (.dreamer concurrentModificationMsg) ∧
    (sync conflictState conflictRemote).2.2 = conflictRemote :=
  c1_sync_conflict_fails_uploads_nothing conflictState conflictRemote (some 1)
    (by decide) rfl rfl (by decide)

/-- C10: `module_exists` returns `true` for every module string on every
provider state, including modules for which nothing was ever stored, so
it can never detect an absent module. -/
theorem c10_module_exists_always_true (s : State) (module : String) :
    module_exists s module = true := rfl

/-- `sync` leaves the dirty set exactly as it was, on every code path:
nothing in `AWSFileProvider.sync` ever writes `self.dirty`. -/
theorem sync_result_dirty (s : State) (r : Remote) :
    ((sync s r).2.1).dirty = s.dirty := by
  simp only [sync]
  split
  · rfl
  · obtain ⟨res, lf, hg⟩ := get_remote_version_shape s r
    rw [hg]
    cases res with
    | error e => rfl
    | ok current =>
      simp only []
      split
      · rfl
      · split
        · rfl
        · rename_i u r2 heq
          split
          · obtain ⟨res3, lf2, r3, hsp⟩ :=
              sync_project_shape { s with local_files := lf } r2
            rw [hsp]
            cases res3 with
            | ok nv => rfl
            | error e => rfl
          · rfl

/-- C2 counterexample: in the open/write/sync/sync run, the first `sync()`
succeeds and writes metadata version 0, but it does **not** clear the dirty
set (`'m/p/f'` is still dirty), and the second `sync()` is not a no-op: it
performs a second version increment, writing metadata version 1.  This
refutes "a successful sync() clears the dirty set ... at most one version
increment in total, and the second call is a no-op". -/
theorem c2_counterexample :
    c2_sync1.1 = .ok true ∧
    lookupObj c2_sync1.2.2.objects "m/p" = some (.meta 0 whoami) ∧
    c2_sync1.2.1.dirty = ["m/p/f"] ∧
    c2_sync2.1 = .ok true ∧
    lookupObj c2_sync2.2.2.objects "m/p" = some (.meta 1 whoami) :=
  ⟨rfl, rfl, rfl, rfl, rfl⟩

/-- C2 amended: `sync()` never modifies the dirty set, so calling `sync()`
twice in a row with no intervening writes performs two version increments:
the second call succeeds (the version check passes because `last_version`
was updated) and re-writes the metadata, advancing it to version 1 in the
P5 run. -/
theorem c2_amended_sync_never_clears_dirty :
    (∀ (s : State) (r : Remote), ((sync s r).2.1).dirty = s.dirty) ∧
    c2_sync2.1 = .ok true ∧
    lookupObj c2_sync2.2.2.objects "m/p" = some (.meta 1 whoami) :=
  ⟨sync_result_dirty, rfl, rfl⟩

/-- C3 counterexample: `close_project` on an open project with an empty
dirty set still advances the remote metadata record from version 0 to
version 1, refuting "a close() with no dirty data does not increment the
remote version" (and hence that `close()` performs the same
synchronisation as `sync()`, which would have returned without touching
the remote). -/
theorem c3_counterexample :
    cleanOpenState.dirty = [] ∧
    (close_project cleanOpenState versionZeroRemote).1 = .ok () ∧
    lookupObj (close_project cleanOpenState versionZeroRemote).2.2.objects "m/p" =
      some (.meta 1 whoami) :=
  ⟨rfl, rfl, rfl⟩

/-- C3 amended: `close_project` does not call `sync()`; it calls
`sync_project()` directly, which — whenever a project is open and the
remote is reachable — unconditionally writes a fresh metadata record with
version `last_version + 1` (`0` when `last_version` is `None`), with no
optimistic version check and no upload of dirty staged files (the remote
changes only at the metadata key, the dirty set is untouched), and then
clears the current context. -/
theorem c3_amended_close_unconditionally_bumps_version
    (s : State) (r : Remote) (m p : String)
    (hm : s.default_module = some m) (hp : s.default_project = some p)
    (hnet : r.unreachable = false) :
    (close_project s r).1 = .ok () ∧
    ((close_project s r).2.1).default_module = none ∧
    ((close_project s r).2.1).default_project = none ∧
    ((close_project s r).2.1).last_version = none ∧
    ((close_project s r).2.1).dirty = s.dirty ∧
    (close_project s r).2.2 =
      { r with
        objects :=
          setObj r.objects (s.key_pre ++ m ++ "/" ++ p)
            (.meta (match s.last_version with | none => 0 | some v => v + 1) whoami) } := by
  simp only [close_project, sync_project, hm, hp, uploadFile, hnet, Bool.false_eq_true, if_false]
  simp

/-- C4 (code bug): at the failing input — scoped exit with **no**
exception in flight, after another process advanced the remote version so
that `sync()` raises the concurrent-modification error — `__exit__`
nevertheless removes the staging directory (`rmtree` runs because
`exc_type is None`) and then logs the message claiming the local state
has NOT been removed; and when an exception *is* in flight and `sync()`
also fails, the caller observes the `sync()` exception instead of the
original one. -/
theorem c4_exit_removes_staging_despite_sync_failure :
    (sync conflictState conflictRemote).1 = .error (.dreamer concurrentModificationMsg) ∧
    (exitScope conflictState conflictRemote false).raised =
      some (.dreamer concurrentModificationMsg) ∧
    (exitScope conflictState conflictRemote false).staging_removed = true ∧
    (exitScope conflictState conflictRemote false).state.local_files = [] ∧
    (exitScope conflictState conflictRemote false).logged_not_removed = true ∧
    observedException (some (.osErr "original failure"))
        (exitScope conflictState conflictRemote true) =
      some (.dreamer concurrentModificationMsg) :=
  ⟨rfl, rfl, rfl, rfl, rfl, rfl⟩

/-- C3 witness: the amended behaviour at the concrete clean-close
scenario: the version is bumped from 0 to 1 although nothing is dirty. -/
theorem c3_witness :
    (close_project cleanOpenState versionZeroRemote).1 = .ok () ∧
    ((close_project cleanOpenState versionZeroRemote).2.1).default_module = none ∧
    ((close_project cleanOpenState versionZeroRemote).2.1).default_project = none ∧
    ((close_project cleanOpenState versionZeroRemote).2.1).last_version = none ∧
    ((close_project cleanOpenState versionZeroRemote).2.1).dirty = cleanOpenState.dirty ∧
    (close_project cleanOpenState versionZeroRemote).2.2 =
      { versionZeroRemote with
        objects :=
          setObj versionZeroRemote.objects (cleanOpenState.key_pre ++ "m" ++ "/" ++ "p")
            (.meta (match cleanOpenState.last_version with | none => 0 | some v => v + 1)
              whoami) } :=
  c3_amended_close_unconditionally_bumps_version cleanOpenState versionZeroRemote "m" "p"
    rfl rfl rfl

/-- C5 counterexample: the metadata fetch at `open` fails with
`AccessDenied` — a transport error that is *not* "object not found" — yet
`open_project` succeeds and records `last_version = None` (treating the
project as never-synced) instead of propagating the failure. -/
theorem c5_counterexample :
    downloadFile deniedRemote "m/p" = .error (.clientErr .accessDenied) ∧
    (open_project freshState deniedRemote "m" "p").1 = .ok () ∧
    ((open_project freshState deniedRemote "m" "p").2.1).last_version = none :=
  ⟨rfl, rfl, rfl⟩

/-- C5 amended: `open(module, project)` sets the context and then sets
`last_version` to the metadata record's version field on success, and to
`None` on **any** `ClientError` from the fetch (not only "object not
found" — e.g. an access-denied response is also treated as an absent
record); only non-client transport failures (e.g. connection errors)
propagate to the caller. -/
theorem c5_amended_open_swallows_any_client_error :
    (∀ (s : State) (r : Remote) (m p : String) (k : ClientKind),
        downloadFile r (s.key_pre ++ m ++ "/" ++ p) = .error (.clientErr k) →
        (open_project s r m p).1 = .ok () ∧
        ((open_project s r m p).2.1).default_module = some m ∧
        ((open_project s r m p).2.1).default_project = some p ∧
        ((open_project s r m p).2.1).last_version = none) ∧
    (∀ (s : State) (r : Remote) (m p : String) (v : Nat) (a : String),
        downloadFile r (s.key_pre ++ m ++ "/" ++ p) = .ok (.meta v a) →
        (open_project s r m p).1 = .ok () ∧
        ((open_project s r m p).2.1).last_version = some v) ∧
    (∀ (s : State) (r : Remote) (m p : String) (e : PyErr),
        downloadFile r (s.key_pre ++ m ++ "/" ++ p) = .error e →
        e.isClientError = false →
        (open_project s r m p).1 = .error e) := by
  refine ⟨?_, ?_, ?_⟩
  · intro s r m p k hdl
    simp only [open_project, get_remote_version, get_metadata, hdl, PyErr.isClientError]
    simp
  · intro s r m p v a hdl
    simp only [open_project, get_remote_version, get_metadata, hdl]
    simp
  · intro s r m p e hdl hcl
    simp only [open_project, get_remote_version, get_metadata, hdl, hcl]
    simp

/-- C5 witness: the amended behaviour at concrete remotes — access denied
is swallowed into `last_version = None`, a present record is read, a
connection failure propagates. -/
theorem c5_witness :
    ((open_project freshState deniedRemote "m" "p").1 = .ok () ∧
     ((open_project freshState deniedRemote "m" "p").2.1).last_version = none) ∧
    ((open_project freshState versionZeroRemote "m" "p").2.1).last_version = some 0 ∧
    (open_project freshState unreachableRemote "m" "p").1 = .error .connError := by
  obtain ⟨h1, h2, h3, h4⟩ :=
    c5_amended_open_swallows_any_client_error.1 freshState deniedRemote "m" "p"
      .accessDenied rfl
  refine ⟨⟨h1, h4⟩, ?_, ?_⟩
  · exact (c5_amended_open_swallows_any_client_error.2.1 freshState versionZeroRemote
      "m" "p" 0 "author@host" rfl).2
  · exact c5_amended_open_swallows_any_client_error.2.2 freshState unreachableRemote
      "m" "p" .connError rfl rfl

/-- Resolving an explicit `(project, module)` pair never consults the
defaults and always succeeds. -/
theorem get_project_and_module_some (s : State) (p m : String) :
    get_project_and_module s (some p) (some m) = .ok (p, m) := rfl

/-- When the key is absent from the remote, `download_file` fails (with
`NoSuchKey`, `AccessDenied` or a connection error, depending on the
remote's failure configuration). -/
theorem downloadFile_error_of_absent (r : Remote) (key : String)
    (h : lookupObj r.objects key = none) : ∃ e, downloadFile r key = .error e := by
  simp only [downloadFile]
  split
  · exact ⟨_, rfl⟩
  · split
    · exact ⟨_, rfl⟩
    · rw [h]
      exact ⟨_, rfl⟩

/-- `get` on a file with no staging copy whose download fails — with *any*
error — returns `FileNotFoundError` and leaves state and remote
unchanged. -/
theorem get_miss (s : State) (r : Remote) (fn : String) (project module : Option String)
    (p m : String)
    (hres : get_project_and_module s project module = .ok (p, m))
    (hlocal : lookupObj s.local_files (localPath m p fn) = none)
    (e : PyErr) (hdl : downloadFile r (s3Key s m p fn) = .error e) :
    get s r fn project module =
      (.error (.fileNotFound ("s3://" ++ s.bucket ++ "/" ++ s3Key s m p fn)), s, r) := by
  simp only [get, hres, hlocal, hdl]

/-- `get` on a file with no staging copy whose download succeeds caches
the content in the staging directory and returns the staging path. -/
theorem get_hit (s : State) (r : Remote) (fn : String) (project module : Option String)
    (p m : String)
    (hres : get_project_and_module s project module = .ok (p, m))
    (hlocal : lookupObj s.local_files (localPath m p fn) = none)
    (c : Content) (hdl : downloadFile r (s3Key s m p fn) = .ok c) :
    get s r fn project module =
      (.ok (localPath m p fn),
       { s with local_files := setObj s.local_files (localPath m p fn) c }, r) := by
  simp only [get, hres, hlocal, hdl]

/-- C6 amended: `read(filename)` with no local staging copy fetches the
object into the staging directory and returns the staging path; but it
raises `NotFound` whenever the remote fetch fails **for any reason**
(object not found, authorization failure, connection error alike): no
transport failure propagates verbatim. -/
theorem c6_amended_get_notfound_on_any_failure
    (s : State) (r : Remote) (fn : String) (project module : Option String) (p m : String)
    (hres : get_project_and_module s project module = .ok (p, m))
    (hlocal : lookupObj s.local_files (localPath m p fn) = none) :
    (∀ e, downloadFile r (s3Key s m p fn) = .error e →
      get s r fn project module =
        (.error (.fileNotFound ("s3://" ++ s.bucket ++ "/" ++ s3Key s m p fn)), s, r)) ∧
    (∀ c, downloadFile r (s3Key s m p fn) = .ok c →
      get s r fn project module =
        (.ok (localPath m p fn),
         { s with local_files := setObj s.local_files (localPath m p fn) c }, r)) :=
  ⟨fun e hdl => get_miss s r fn project module p m hres hlocal e hdl,
   fun c hdl => get_hit s r fn project module p m hres hlocal c hdl⟩

/-- C6 counterexample: a connection failure (the remote is unreachable;
no "object not found" is involved) is converted to `FileNotFoundError`
by `get` instead of propagating verbatim. -/
theorem c6_counterexample :
    unreachableRemote.unreachable = true ∧
    downloadFile unreachableRemote "m/p/f" = .error .connError ∧
    (get openedState unreachableRemote "f" none none).1 =
      .error (.fileNotFound "s3://bucket/m/p/f") :=
  ⟨rfl, rfl, rfl⟩

/-- C6 witness: the amended behaviour at concrete remotes — an
unreachable remote yields `NotFound`, a present object is fetched into
the staging directory. -/
theorem c6_witness :
    get openedState unreachableRemote "f" none none =
      (.error (.fileNotFound ("s3://" ++ openedState.bucket ++ "/" ++
        s3Key openedState "m" "p" "f")), openedState, unreachableRemote) ∧
    get openedState fileRemote "f" none none =
      (.ok (localPath "m" "p" "f"),
       { openedState with
         local_files := setObj openedState.local_files (localPath "m" "p" "f") (.file [1, 2]) },
       fileRemote) :=
  ⟨(c6_amended_get_notfound_on_any_failure openedState unreachableRemote "f" none none
      "p" "m" rfl rfl).1 .connError rfl,
   (c6_amended_get_notfound_on_any_failure openedState fileRemote "f" none none
      "p" "m" rfl rfl).2 (.file [1, 2]) rfl⟩

/-- Looking up a key just stored by `setObj` returns the stored content. -/
theorem lookupObj_setObj_self (l : List (String × Content)) (k : String) (c : Content) :
    lookupObj (setObj l k c) k = some c := by
  induction l with
  | nil => simp [setObj, lookupObj]
  | cons kv rest ih =>
    obtain ⟨a, b⟩ := kv
    by_cases h : a = k
    · subst h
      simp [setObj, lookupObj]
    · simp [setObj, lookupObj, h, ih]

end AWSFileProvider

/-- Adding an element to a list if absent makes it a member. -/
theorem mem_add_if_absent (l : List String) (x : String) :
    x ∈ (if l.contains x then l else l ++ [x]) := by
  by_cases h : l.contains x
  · simp only [if_pos h]
    exact List.mem_of_elem_eq_true h
  · simp only [if_neg h]
    exact List.mem_append_right _ (List.mem_singleton_self x)

namespace LocalFileProvider

/-- Resolving an explicit `(project, module)` pair on the local provider
never consults the defaults and always succeeds. -/
theorem local_resolve_explicit_pair (ls : State) (p m : String) :
    get_project_and_module ls (some p) (some m) = .ok (p, m) := rfl

/-- `get_rw` on the local provider for a path that does not exist yet:
it succeeds (never `NotFound`) and the returned path now holds an empty
file. -/
theorem local_get_rw_fresh (ls : State) (fs : LocalFS) (fn p m : String)
    (hne : pathExists fs (get_path ls fn p m) = false) :
    (get_rw ls fs fn (some p) (some m)).1 = .ok (get_path ls fn p m) ∧
    (get_path ls fn p m, ([] : List Nat)) ∈ ((get_rw ls fs fn (some p) (some m)).2).files := by
  have hsl : ("/" : String).length = 1 := rfl
  have hlen : (get_path ls fn p m).length =
      ls.base_dir.length + 1 + m.length + 1 + p.length + 1 + fn.length := by
    simp [get_path, String.length_append, hsl]
  have hb : get_path ls fn p m ≠ ls.base_dir := by
    intro h
    have hc := congrArg String.length h
    rw [hlen] at hc
    omega
  have hmd : get_path ls fn p m ≠ ls.base_dir ++ "/" ++ m := by
    intro h
    have hc := congrArg String.length h
    rw [hlen] at hc
    simp [String.length_append, hsl] at hc
    omega
  have hpd : get_path ls fn p m ≠ ls.base_dir ++ "/" ++ m ++ "/" ++ p := by
    intro h
    have hc := congrArg String.length h
    rw [hlen] at hc
    simp [String.length_append, hsl] at hc
    omega
  simp only [get_rw, local_resolve_explicit_pair]
  split_ifs <;>
    simp_all [pathExists, addDir, touch, List.mem_append]

end LocalFileProvider

/-- C7: `write(f)` on a file that does not yet exist in the backend never
fails with `NotFound`.  On the object-store backend (file absent both from
the staging directory and the remote) it returns the staging path, the
staged file's initial content is the empty byte sequence, and the file is
marked dirty for the next sync.  On the local backend (path absent from
the filesystem) it returns the target path, now holding an empty file. -/
theorem c7_first_write_no_error :
    (∀ (s : AWSFileProvider.State) (r : Remote) (fn p m : String),
        lookupObj s.local_files (AWSFileProvider.localPath m p fn) = none →
        lookupObj r.objects (AWSFileProvider.s3Key s m p fn) = none →
        (AWSFileProvider.get_rw s r fn (some p) (some m)).1 =
          .ok (AWSFileProvider.localPath m p fn) ∧
        lookupObj ((AWSFileProvider.get_rw s r fn (some p) (some m)).2.1).local_files
            (AWSFileProvider.localPath m p fn) = some (.file []) ∧
        AWSFileProvider.localPath m p fn ∈
          ((AWSFileProvider.get_rw s r fn (some p) (some m)).2.1).dirty) ∧
    (∀ (ls : LocalFileProvider.State) (fs : LocalFileProvider.LocalFS) (fn p m : String),
        LocalFileProvider.pathExists fs (LocalFileProvider.get_path ls fn p m) = false →
        (LocalFileProvider.get_rw ls fs fn (some p) (some m)).1 =
          .ok (LocalFileProvider.get_path ls fn p m) ∧
        (LocalFileProvider.get_path ls fn p m, ([] : List Nat)) ∈
          ((LocalFileProvider.get_rw ls fs fn (some p) (some m)).2).files) := by
  constructor
  · intro s r fn p m hlocal hremote
    obtain ⟨e, hdl⟩ :=
      AWSFileProvider.downloadFile_error_of_absent r (AWSFileProvider.s3Key s m p fn) hremote
    have hg := AWSFileProvider.get_miss
      { s with dirty := if s.dirty.contains (AWSFileProvider.localPath m p fn) then s.dirty
               else s.dirty ++ [AWSFileProvider.localPath m p fn] }
      r fn (some p) (some m) p m rfl hlocal e hdl
    simp only [AWSFileProvider.get_rw, AWSFileProvider.get_project_and_module_some, hg]
    exact ⟨trivial, AWSFileProvider.lookupObj_setObj_self _ _ _, mem_add_if_absent _ _⟩
  · intro ls fs fn p m hne
    exact LocalFileProvider.local_get_rw_fresh ls fs fn p m hne

/-- C7 witness: a first write of file `f` in project `m/p` against an
empty remote, and of `base/db/prod/f` on an empty-but-for-base local
filesystem. -/
theorem c7_witness :
    ((AWSFileProvider.get_rw openedState emptyRemote "f" (some "p") (some "m")).1 =
      .ok (AWSFileProvider.localPath "m" "p" "f") ∧
     lookupObj ((AWSFileProvider.get_rw openedState emptyRemote "f"
        (some "p") (some "m")).2.1).local_files (AWSFileProvider.localPath "m" "p" "f") =
       some (.file []) ∧
     AWSFileProvider.localPath "m" "p" "f" ∈
       ((AWSFileProvider.get_rw openedState emptyRemote "f" (some "p") (some "m")).2.1).dirty) ∧
    ((LocalFileProvider.get_rw localState localFsNoProject "f" (some "prod") (some "db")).1 =
      .ok (LocalFileProvider.get_path localState "f" "prod" "db") ∧
     (LocalFileProvider.get_path localState "f" "prod" "db", ([] : List Nat)) ∈
       ((LocalFileProvider.get_rw localState localFsNoProject "f"
          (some "prod") (some "db")).2).files) :=
  ⟨c7_first_write_no_error.1 openedState emptyRemote "f" "p" "m" rfl rfl,
   c7_first_write_no_error.2 localState localFsNoProject "f" "prod" "db" rfl⟩

namespace AWSFileProvider

/-- C8 counterexample: recursive `delete_project('prod', 'db')` on the
two-file project does delete every remote key, yet a subsequent
`project_exists` on the **same** provider instance returns `true`: the
memoised `bucket_contents` listing, populated during the deletion itself,
still contains the project record. -/
theorem c8_counterexample :
    c8_del.1 = .ok () ∧
    lookupObj c8_del.2.2.objects "db/prod" = none ∧
    lookupObj c8_del.2.2.objects "db/prod/a" = none ∧
    lookupObj c8_del.2.2.objects "db/prod/b" = none ∧
    (project_exists c8_del.2.1 c8_del.2.2 "prod" (some "db")).1 = .ok true :=
  ⟨rfl, rfl, rfl, rfl, rfl⟩

/-- C8 amended: in the spec's scenario, recursive `delete_project` deletes
both listed files **before** the project's own record (the deletion log is
`[db/prod/a, db/prod/b, db/prod]`) and empties the remote; but
`exists_project` on the same instance still answers `true` from the
bucket listing memoised during the deletion — only a fresh provider
instance (whose cache is empty) answers `false`. -/
theorem c8_amended_delete_order_and_stale_exists :
    c8_del.1 = .ok () ∧
    c8_del.2.2.delLog = ["db/prod/a", "db/prod/b", "db/prod"] ∧
    c8_del.2.2.objects = [] ∧
    (project_exists c8_del.2.1 c8_del.2.2 "prod" (some "db")).1 = .ok true ∧
    (project_exists freshState c8_del.2.2 "prod" (some "db")).1 = .ok false :=
  ⟨rfl, rfl, rfl, rfl, rfl⟩

/-- The memoised `bucket_contents` ignores the `_deleted_project` flag:
its result and final remote are unchanged by the flag. -/
theorem bucket_contents_flag (s : State) (r : Remote) (b : Bool) :
    (bucket_contents { s with deleted_project := b } r).1 = (bucket_contents s r).1 ∧
    (bucket_contents { s with deleted_project := b } r).2.2 = (bucket_contents s r).2.2 := by
  simp only [bucket_contents]
  cases hc : s.bucket_cache with
  | some l => exact ⟨rfl, rfl⟩
  | none =>
    cases hk : listKeys r s.key_pre with
    | ok keys => exact ⟨rfl, rfl⟩
    | error e => exact ⟨rfl, rfl⟩

/-- `get_files` never changes the remote. -/
theorem get_files_remote (s : State) (r : Remote) (pr md : Option String) :
    (get_files s r pr md).2.2 = r := by
  simp only [get_files]
  cases hres : get_project_and_module s pr md with
  | error e => rfl
  | ok pm =>
    obtain ⟨p, m⟩ := pm
    simp only [bucket_contents]
    cases hc : s.bucket_cache with
    | some l => rfl
    | none =>
      cases hk : listKeys r s.key_pre with
      | ok keys => rfl
      | error e => rfl

/-- The result of `get_files` ignores the `_deleted_project` flag. -/
theorem get_files_flag (s : State) (r : Remote) (pr md : Option String) (b : Bool) :
    (get_files { s with deleted_project := b } r pr md).1 = (get_files s r pr md).1 := by
  obtain ⟨hb1, hb2⟩ := bucket_contents_flag s r b
  have hgpm : get_project_and_module { s with deleted_project := b } pr md =
      get_project_and_module s pr md := rfl
  simp only [get_files, hgpm]
  cases hres : get_project_and_module s pr md with
  | error e => rfl
  | ok pm =>
    obtain ⟨p, m⟩ := pm
    rcases h1 : bucket_contents { s with deleted_project := b } r with ⟨res1, s1, r1⟩
    rcases h2 : bucket_contents s r with ⟨res2, s2, r2⟩
    rw [h1, h2] at hb1
    have hres : res1 = res2 := hb1
    subst hres
    cases res1 with
    | ok keys => rfl
    | error e => rfl

end AWSFileProvider

/-- C9 counterexample: on the local backend, `delete_project` of a project
whose directory does not exist (hence has zero files) raises
`FileNotFoundError` (from `shutil.rmtree`) instead of completing as a
no-op. -/
theorem c9_counterexample :
    (LocalFileProvider.delete_project localState localFsNoProject "prod" (some "db") true).1 =
      .error (.fileNotFound "base/db/prod") :=
  rfl

/-- C9 amended: the object-store backend tolerates a recursive
`delete_project` of a project with zero listed files (including a project
that never existed) without error; the local backend tolerates deleting an
*existing* project directory with zero files, but raises `NotFound` when
the project directory does not exist at all.  (Neither backend emits a
warning.) -/
theorem c9_amended_delete_empty_project :
    (∀ (s : AWSFileProvider.State) (r : Remote) (p m : String),
        (AWSFileProvider.get_files s r (some p) (some m)).1 = .ok [] →
        r.unreachable = false →
        (AWSFileProvider.delete_project s r p (some m) true).1 = .ok ()) ∧
    (∀ (ls : LocalFileProvider.State) (fs : LocalFileProvider.LocalFS) (p m : String),
        fs.dirs.contains (ls.base_dir ++ "/" ++ m ++ "/" ++ p) = true →
        (LocalFileProvider.delete_project ls fs p (some m) true).1 = .ok ()) ∧
    (∀ (ls : LocalFileProvider.State) (fs : LocalFileProvider.LocalFS) (p m : String),
        fs.dirs.contains (ls.base_dir ++ "/" ++ m ++ "/" ++ p) = false →
        (LocalFileProvider.delete_project ls fs p (some m) true).1 =
          .error (.fileNotFound (ls.base_dir ++ "/" ++ m ++ "/" ++ p))) := by
  refine ⟨?_, ?_, ?_⟩
  · intro s r p m hfiles hnet
    simp only [AWSFileProvider.delete_project, AWSFileProvider.get_project_and_module_some]
    by_cases hd : s.default_project = some p ∧ s.default_module = some m
    · simp only [if_pos hd]
      rcases hgf : AWSFileProvider.get_files { s with deleted_project := true } r
          (some p) (some m) with ⟨res0, s1, r1⟩
      have hres0 : res0 = .ok [] := by
        have := AWSFileProvider.get_files_flag s r (some p) (some m) true
        rw [hgf, hfiles] at this
        exact this
      have hr1 : r1 = r := by
        have := AWSFileProvider.get_files_remote { s with deleted_project := true } r
          (some p) (some m)
        rw [hgf] at this
        exact this
      subst hres0
      subst hr1
      simp only [AWSFileProvider.delete_files, deleteObject, hnet]
      simp
    · simp only [if_neg hd]
      rcases hgf : AWSFileProvider.get_files s r (some p) (some m) with ⟨res0, s1, r1⟩
      have hres0 : res0 = .ok [] := by rw [hgf] at hfiles; exact hfiles
      have hr1 : r1 = r := by
        have := AWSFileProvider.get_files_remote s r (some p) (some m)
        rw [hgf] at this
        exact this
      subst hres0
      subst hr1
      simp only [AWSFileProvider.delete_files, deleteObject, hnet]
      simp
  · intro ls fs p m hdir
    simp only [LocalFileProvider.delete_project, LocalFileProvider.local_resolve_explicit_pair,
      LocalFileProvider.rmtree, hdir]
    simp
  · intro ls fs p m hdir
    simp only [LocalFileProvider.delete_project, LocalFileProvider.local_resolve_explicit_pair,
      LocalFileProvider.rmtree, hdir]
    simp

/-- C9 witness: the amended behaviour at concrete stores — the object
store and an existing empty local project directory tolerate the deletion,
the missing local project directory raises. -/
theorem c9_witness :
    (AWSFileProvider.delete_project freshState emptyRemote "prod" (some "db") true).1 =
      .ok () ∧
    (LocalFileProvider.delete_project localState localFsEmptyProject "prod" (some "db") true).1 =
      .ok () ∧
    (LocalFileProvider.delete_project localState localFsNoProject "prod" (some "db") true).1 =
      .error (.fileNotFound (localState.base_dir ++ "/" ++ "db" ++ "/" ++ "prod")) :=
  ⟨c9_amended_delete_empty_project.1 freshState emptyRemote "prod" "db" rfl rfl,
   c9_amended_delete_empty_project.2.1 localState localFsEmptyProject "prod" "db" rfl,
   c9_amended_delete_empty_project.2.2 localState localFsNoProject "prod" "db" rfl⟩

end Dreamer

